import Mathlib

/-!
Shallow embedding of the vehicle-rental CRUD service (`routers/auto.py`).

Each FastAPI handler becomes a pure Lean function over an explicit store
(`List Auto`).  Mutating handlers return the new store together with the
handler's result; read-only handlers that the HTTP layer still threads the
store through (calculate-price) return the store unchanged.  Errors are an
explicit sum: boundary request-validation failures (FastAPI 422), the
authorization denial raised by the role dependency (403), and
`HTTPException(status, detail)` raised inside a handler body.

FastAPI resolves a handler's dependencies (here: the role gate) before it
validates the handler's own path/query parameters, so every embedded
endpoint checks the role first, then the declared parameter constraints,
then runs the handler body.

Prices are Python floats in the source; the spec fixes the intended
semantics as exact decimal arithmetic, so the embedding uses `ℚ`.
-/

inductive Role where
  | owner
  | customer
  | guest
deriving Repr, DecidableEq

/-- Modelled from the spec: `services/dependencies.py` is not part of the
excerpt.  Per §4.1 of the spec, `owner_required` permits only the `owner`
role; every other role (customer, guest, unauthenticated) is denied. -/
def owner_required (r : Role) : Bool :=
  r == Role.owner

/-- Modelled from the spec: `services/dependencies.py` is not part of the
excerpt.  Per §4.1 of the spec, `owner_or_customer_required` permits the
`owner` and `customer` roles and denies all others. -/
def owner_or_customer_required (r : Role) : Bool :=
  r == Role.owner || r == Role.customer

inductive ApiError where
  | requestValidation
  | authorization
  | http (status : Nat) (detail : String)
deriving Repr, DecidableEq

/-- A persisted vehicle record (`models/auto.py` row, surfaced through the
`Auto` response schema). -/
structure Auto where
  id : Int
  brand : String
  model : String
  jahr : Int
  preis_pro_stunde : ℚ
  status : Bool
deriving Repr, DecidableEq

/-- Modelled from the spec: `schemas/auto.py` is not part of the excerpt.
`AutoCreate` carries the creation payload; all fields are required and
passed through to the new record (§4.2 Create). -/
structure AutoCreate where
  brand : String
  model : String
  jahr : Int
  preis_pro_stunde : ℚ
  status : Bool
deriving Repr, DecidableEq

/-- Modelled from the spec: `schemas/auto.py` is not part of the excerpt.
`AutoUpdate` is the partial-update payload: every field optional, matching
the `is not None` checks in `update_auto`. -/
structure AutoUpdate where
  brand : Option String
  model : Option String
  jahr : Option Int
  preis_pro_stunde : Option ℚ
  status : Option Bool
deriving Repr, DecidableEq

/-- `db.query(AutoModel).filter(AutoModel.id == auto_id).first()`. -/
def findById (store : List Auto) (i : Int) : Option Auto :=
  store.find? (fun a => a.id == i)

/-- Case-insensitive character comparison helper for SQL `ILIKE`. -/
def lowerChars (s : String) : List Char :=
  s.toList.map Char.toLower

/-- Whether `p` occurs at the head of `h`. -/
def listStartsWith : List Char → List Char → Bool
  | [], _ => true
  | _ :: _, [] => false
  | a :: p, b :: h => a == b && listStartsWith p h

/-- Whether `p` occurs contiguously anywhere inside `h`. -/
def listHasSub (p : List Char) (h : List Char) : Bool :=
  match h with
  | [] => p.isEmpty
  | _ :: t => listStartsWith p h || listHasSub p t

/-- SQL `column ILIKE '%pat%'`: case-insensitive substring match. -/
def ilikeContains (hay pat : String) : Bool :=
  listHasSub (lowerChars pat) (lowerChars hay)

/-- POST `/api/v1/auto` (`create_auto`).  The store assigns `newId` to the
inserted row. -/
def create_auto (role : Role) (store : List Auto) (auto : AutoCreate)
    (newId : Int) : List Auto × Except ApiError Auto :=
  if owner_required role then
    if auto.preis_pro_stunde ≤ 0 then
      (store, .error (.http 400 "Price per hour must be greater than 0."))
    else
      let db_auto : Auto :=
        { id := newId, brand := auto.brand, model := auto.model,
          jahr := auto.jahr, preis_pro_stunde := auto.preis_pro_stunde,
          status := auto.status }
      (store ++ [db_auto], .ok db_auto)
  else (store, .error .authorization)

/-- GET `/api/v1/autos` (`show_all_auto`): all records with `status == true`;
an empty result is returned as-is, never a 404. -/
def show_all_auto (role : Role) (store : List Auto) :
    Except ApiError (List Auto) :=
  if owner_required role then
    .ok (store.filter (fun a => a.status))
  else .error .authorization

/-- The query pipeline of `search_auto`: each filter is applied only when its
parameter is Python-truthy (`if brand:` skips `None` and `""`; `if jahr:`
skips `None` and `0`; `status` is applied whenever it `is not None`). -/
def searchQuery (brand «model» : Option String) (jahr : Option Int)
    (status : Option Bool) (store : List Auto) : List Auto :=
  let q := store
  let q := match brand with
    | some b => if b = "" then q else q.filter (fun a => ilikeContains a.brand b)
    | none => q
  let q := match «model» with
    | some m => if m = "" then q else q.filter (fun a => ilikeContains a.model m)
    | none => q
  let q := match jahr with
    | some j => if j = 0 then q else q.filter (fun a => a.jahr == j)
    | none => q
  match status with
    | some s => q.filter (fun a => a.status == s)
    | none => q

/-- The boundary constraint `Query(None, ge=2000, le=datetime.now().year)`
on the `jahr` search parameter; `now` is the current calendar year. -/
def jahrInRange (jahr : Option Int) (now : Int) : Bool :=
  match jahr with
  | none => true
  | some j => 2000 ≤ j && j ≤ now

/-- GET `/api/v1/autos/search` (`search_auto`).  An out-of-range `jahr` is a
422 at the boundary. -/
def search_auto (role : Role) (now : Int) (store : List Auto)
    (brand «model» : Option String) (jahr : Option Int)
    (status : Option Bool) : Except ApiError (List Auto) :=
  if owner_or_customer_required role then
    if jahrInRange jahr now then
      let result := searchQuery brand «model» jahr status store
      if result.isEmpty then
        .error (.http 404 "No matching autos found.")
      else .ok result
    else .error .requestValidation
  else .error .authorization

/-- GET `/api/v1/autos/{auto_id}` (`show_auto`).  Note: the source declares
`auto_id: int` with no positivity constraint. -/
def show_auto (role : Role) (store : List Auto) (auto_id : Int) :
    Except ApiError Auto :=
  if owner_required role then
    match findById store auto_id with
    | none => .error (.http 404 s!"Auto with ID {auto_id} not found.")
    | some a => .ok a
  else .error .authorization

/-- The field-by-field assignment sequence of `update_auto`: price first
(after its validation), then brand, model, jahr, status, each only when
supplied. -/
def applyUpdate (a : Auto) (u : AutoUpdate) : Auto :=
  let a := match u.preis_pro_stunde with
    | some p => { a with preis_pro_stunde := p }
    | none => a
  let a := match u.brand with
    | some b => { a with brand := b }
    | none => a
  let a := match u.model with
    | some m => { a with model := m }
    | none => a
  let a := match u.jahr with
    | some j => { a with jahr := j }
    | none => a
  match u.status with
    | some s => { a with status := s }
    | none => a

/-- PUT `/api/v1/autos/{auto_id}` (`update_auto`).  No positivity constraint
on `auto_id` at the boundary; a supplied non-positive price aborts before
any field is written. -/
def update_auto (role : Role) (store : List Auto) (auto_id : Int)
    (u : AutoUpdate) : List Auto × Except ApiError Auto :=
  if owner_required role then
    match findById store auto_id with
    | none =>
        (store, .error (.http 404 s!"Auto with ID {auto_id} does not exist."))
    | some a =>
        let commit : List Auto × Except ApiError Auto :=
          let updated := applyUpdate a u
          (store.map (fun b => if b.id == auto_id then updated else b),
           .ok updated)
        match u.preis_pro_stunde with
        | some p =>
            if p ≤ 0 then
              (store,
               .error (.http 400 "Price per hour must be greater than 0."))
            else commit
        | none => commit
  else (store, .error .authorization)

/-- The composite body returned by `calculate_total_price`. -/
structure PriceResult where
  auto_id : Int
  rental_duration_hours : Int
  price_per_hour : ℚ
  total_price : ℚ
deriving Repr, DecidableEq

/-- POST `/api/v1/autos/{auto_id}/calculate-price` (`calculate_total_price`).
`auto_id` is `Path(..., gt=0)` and `mietdauer_stunden` is
`Query(..., gt=0)`, both 422 at the boundary.  The handler body performs no
store write. -/
def calculate_total_price (role : Role) (store : List Auto)
    (auto_id mietdauer_stunden : Int) :
    List Auto × Except ApiError PriceResult :=
  if owner_or_customer_required role then
    if 0 < auto_id ∧ 0 < mietdauer_stunden then
      match findById store auto_id with
      | none =>
          (store, .error (.http 404 s!"Auto with ID {auto_id} is not available."))
      | some auto =>
          if auto.status then
            (store,
             .ok { auto_id := auto_id,
                   rental_duration_hours := mietdauer_stunden,
                   price_per_hour := auto.preis_pro_stunde,
                   total_price := auto.preis_pro_stunde * mietdauer_stunden })
          else
            (store, .error (.http 400 "The auto is currently not available."))
    else (store, .error .requestValidation)
  else (store, .error .authorization)

/-- DELETE `/api/v1/autos/{auto_id}` (`delete_auto`).  No positivity
constraint on `auto_id` at the boundary. -/
def delete_auto (role : Role) (store : List Auto) (auto_id : Int) :
    List Auto × Except ApiError Unit :=
  if owner_required role then
    match findById store auto_id with
    | none => (store, .error (.http 404 s!"Auto with ID {auto_id} not found."))
    | some _ => (store.filter (fun b => b.id != auto_id), .ok ())
  else (store, .error .authorization)

/-- Spec-side characterisation of §4.2 Search: a record matches when it
satisfies the conjunction of the supplied filters — `brand`/`model`
case-insensitively as substring, `jahr` exactly, `status` exactly. -/
def specMatches (brand «model» : Option String) (jahr : Option Int)
    (status : Option Bool) (a : Auto) : Bool :=
  (match brand with | some b => ilikeContains a.brand b | none => true) &&
  (match «model» with | some m => ilikeContains a.model m | none => true) &&
  (match jahr with | some j => a.jahr == j | none => true) &&
  (match status with | some s => a.status == s | none => true)

/-- Concrete fixture: the available sample vehicle of the test-suite. -/
def autoA : Auto :=
  { id := 1, brand := "BMW", model := "sedan", jahr := 2010,
    preis_pro_stunde := 30, status := true }

/-- Concrete fixture: an unavailable vehicle. -/
def autoB : Auto :=
  { id := 2, brand := "Tesla", model := "model 3", jahr := 2020,
    preis_pro_stunde := 50, status := false }

/-- Concrete fixture: a creation payload with a zero price. -/
def zeroPriceCreate : AutoCreate :=
  { brand := "BMW", model := "sedan", jahr := 2010,
    preis_pro_stunde := 0, status := true }

/-- Concrete fixture: a partial update supplying only `status`. -/
def statusOnlyUpdate : AutoUpdate :=
  { brand := none, model := none, jahr := none,
    preis_pro_stunde := none, status := some false }

/-- Concrete fixture: a partial update supplying nothing at all. -/
def emptyUpdate : AutoUpdate :=
  { brand := none, model := none, jahr := none,
    preis_pro_stunde := none, status := none }

theorem listHasSub_nil (h : List Char) : listHasSub [] h = true := by
  induction h with
  | nil => rfl
  | cons c t ih => simp [listHasSub, listStartsWith, ih]

@[simp] theorem ilikeContains_empty (hay : String) :
    ilikeContains hay "" = true :=
  listHasSub_nil (lowerChars hay)

/-- C1: for an available vehicle present in the store (with the positive id
the store assigns) and any positive rental duration, calculate-price
returns the composite result whose `total_price` is exactly
`price_per_hour * duration`, and the store is unchanged. -/
theorem calculate_price_available_exact (role : Role) (store : List Auto)
    (a : Auto) (h : Int)
    (hrole : owner_or_customer_required role = true)
    (hid : 0 < a.id)
    (hfind : findById store a.id = some a)
    (hstatus : a.status = true)
    (hh : 0 < h) :
    calculate_total_price role store a.id h =
      (store, .ok { auto_id := a.id, rental_duration_hours := h,
                    price_per_hour := a.preis_pro_stunde,
                    total_price := a.preis_pro_stunde * h }) := by
  simp [calculate_total_price, hrole, hid, hh, hfind, hstatus]

theorem calculate_price_available_exact_witness :
    calculate_total_price Role.customer [autoA] autoA.id 5 =
      ([autoA], .ok { auto_id := autoA.id, rental_duration_hours := 5,
                      price_per_hour := autoA.preis_pro_stunde,
                      total_price := autoA.preis_pro_stunde * (5 : Int) }) :=
  calculate_price_available_exact Role.customer [autoA] autoA 5
    (by decide) (by decide) (by decide) (by decide) (by decide)

/-- C2: with a positive duration and a positive id, calculate-price fails
with 404 when the id is absent from the store, and with the 400
business-rule error ("currently not available") when the vehicle exists but
`status == false`, whatever the (positive) duration is; the not-found case
is decided before availability is even consulted. -/
theorem calculate_price_notfound_unavailable (role : Role)
    (store : List Auto) (i h : Int)
    (hrole : owner_or_customer_required role = true)
    (hi : 0 < i) (hh : 0 < h) :
    (findById store i = none →
      calculate_total_price role store i h =
        (store, .error (.http 404 s!"Auto with ID {i} is not available.")))
    ∧ (∀ a, findById store i = some a → a.status = false →
      calculate_total_price role store i h =
        (store, .error (.http 400 "The auto is currently not available."))) := by
  constructor
  · intro hnone
    simp [calculate_total_price, hrole, hi, hh, hnone]
  · intro a hfind hst
    simp [calculate_total_price, hrole, hi, hh, hfind, hst]

theorem calculate_price_notfound_unavailable_witness :
    calculate_total_price Role.owner [autoB] 2 3 =
      ([autoB], .error (.http 400 "The auto is currently not available.")) :=
  (calculate_price_notfound_unavailable Role.owner [autoB] 2 3
    (by decide) (by decide) (by decide)).2 autoB (by decide) (by decide)

/-- C3: creation with a non-positive price fails with the 400 price error
and inserts nothing, and an update supplying a non-positive price on an
existing record fails with the same error and leaves the store (hence every
field of the stored record) unchanged. -/
theorem nonpositive_price_rejected (store : List Auto) (input : AutoCreate)
    (newId : Int) (hc : input.preis_pro_stunde ≤ 0) :
    create_auto Role.owner store input newId =
      (store, .error (.http 400 "Price per hour must be greater than 0."))
    ∧ (∀ (i : Int) (u : AutoUpdate) (a : Auto) (p : ℚ),
        u.preis_pro_stunde = some p → p ≤ 0 → findById store i = some a →
        update_auto Role.owner store i u =
          (store, .error (.http 400 "Price per hour must be greater than 0."))) := by
  constructor
  · simp [create_auto, owner_required, hc]
  · intro i u a p hup hp hfind
    simp [update_auto, owner_required, hfind, hup, hp]

theorem nonpositive_price_rejected_witness :
    create_auto Role.owner [] zeroPriceCreate 1 =
      ([], .error (.http 400 "Price per hour must be greater than 0.")) :=
  (nonpositive_price_rejected [] zeroPriceCreate 1 (by decide)).1

/-- C6: for every role other than owner, every owner-only endpoint (create,
list available, get by id, update, delete) is denied with the authorization
error, for every store and every id — in particular for ids that do not
exist, where the response is still 403 and never 404. -/
theorem owner_only_ops_forbidden (role : Role) (store : List Auto)
    (hrole : role ≠ Role.owner) :
    ∀ (input : AutoCreate) (newId i : Int) (u : AutoUpdate),
      create_auto role store input newId = (store, .error .authorization)
      ∧ show_all_auto role store = .error .authorization
      ∧ show_auto role store i = .error .authorization
      ∧ update_auto role store i u = (store, .error .authorization)
      ∧ delete_auto role store i = (store, .error .authorization) := by
  intro input newId i u
  have h : owner_required role = false := by
    cases role
    · exact absurd rfl hrole
    · rfl
    · rfl
  simp [create_auto, show_all_auto, show_auto, update_auto, delete_auto, h]

theorem owner_only_ops_forbidden_witness :
    show_auto Role.customer [] 99 = .error .authorization :=
  (owner_only_ops_forbidden Role.customer [] (by decide)
    zeroPriceCreate 1 99 emptyUpdate).2.2.1

/-- C9: a search with no filters supplied returns every record in the
store, failing with the 404 "No matching autos found." exactly when the
store is empty. -/
theorem search_no_filters_returns_all (role : Role) (now : Int)
    (store : List Auto) (hrole : owner_or_customer_required role = true) :
    search_auto role now store none none none none =
      (if store.isEmpty then .error (.http 404 "No matching autos found.")
       else .ok store) := by
  simp [search_auto, searchQuery, jahrInRange, hrole]

theorem search_no_filters_returns_all_witness :
    search_auto Role.customer 2026 [] none none none none =
      (if ([] : List Auto).isEmpty
       then .error (.http 404 "No matching autos found.")
       else .ok []) :=
  search_no_filters_returns_all Role.customer 2026 [] (by decide)

/-- C10: supplying `brand` (or `model`) as the empty string is a no-op:
the endpoint behaves exactly as if the filter were omitted, for every
store, role and remaining filters. -/
theorem search_empty_string_filter_noop (role : Role) (now : Int)
    (store : List Auto) («model» brand : Option String) (jahr : Option Int)
    (status : Option Bool) :
    search_auto role now store (some "") «model» jahr status =
      search_auto role now store none «model» jahr status
    ∧ search_auto role now store brand (some "") jahr status =
      search_auto role now store brand none jahr status :=
  ⟨rfl, rfl⟩

theorem brandStage (b : Option String) (q : List Auto) :
    (match b with
     | some s => if s = "" then q
                 else q.filter (fun a => ilikeContains a.brand s)
     | none => q) =
    q.filter (fun a =>
      match b with | some s => ilikeContains a.brand s | none => true) := by
  rcases b with _ | s
  · simp
  · by_cases hs : s = "" <;> simp [hs]

theorem modelStage (b : Option String) (q : List Auto) :
    (match b with
     | some s => if s = "" then q
                 else q.filter (fun a => ilikeContains a.model s)
     | none => q) =
    q.filter (fun a =>
      match b with | some s => ilikeContains a.model s | none => true) := by
  rcases b with _ | s
  · simp
  · by_cases hs : s = "" <;> simp [hs]

theorem statusStage (so : Option Bool) (q : List Auto) :
    (match so with
     | some s => q.filter (fun a => a.status == s)
     | none => q) =
    q.filter (fun a =>
      match so with | some s => a.status == s | none => true) := by
  rcases so with _ | s <;> simp

/-- The chained, truthiness-guarded query of `search_auto` computes exactly
the filter by the spec's conjunction of supplied filters, provided `jahr`
is not the (boundary-unreachable) value `0`. -/
theorem searchQuery_eq_filter (brand «model» : Option String)
    (jahr : Option Int) (status : Option Bool) (store : List Auto)
    (hj : jahr ≠ some 0) :
    searchQuery brand «model» jahr status store =
      store.filter (specMatches brand «model» jahr status) := by
  rcases jahr with _ | j
  · simp only [searchQuery]
    rw [brandStage, modelStage, statusStage,
        List.filter_filter, List.filter_filter]
    apply List.filter_congr
    intro a _
    unfold specMatches
    rcases brand with _ | b <;> rcases «model» with _ | m <;>
      rcases status with _ | s <;>
      simp [Bool.and_comm, Bool.and_left_comm, Bool.and_assoc]
  · have hj0 : j ≠ 0 := fun h => hj (by rw [h])
    simp only [searchQuery, if_neg hj0]
    rw [brandStage, modelStage, statusStage,
        List.filter_filter, List.filter_filter, List.filter_filter]
    apply List.filter_congr
    intro a _
    unfold specMatches
    rcases brand with _ | b <;> rcases «model» with _ | m <;>
      rcases status with _ | s <;>
      simp [Bool.and_comm, Bool.and_left_comm, Bool.and_assoc]

/-- C7: search returns exactly the records satisfying the conjunction of
the supplied filters — brand and model case-insensitively as substring,
jahr exactly (constrained to [2000, current year] at the boundary, 422 on
violation), status exactly (including `status == false`). -/
theorem search_conjunction_semantics (role : Role) (now : Int)
    (store : List Auto) (brand «model» : Option String) (jahr : Option Int)
    (status : Option Bool)
    (hrole : owner_or_customer_required role = true) :
    (jahrInRange jahr now = false →
      search_auto role now store brand «model» jahr status =
        .error .requestValidation)
    ∧ (jahrInRange jahr now = true →
      search_auto role now store brand «model» jahr status =
        (if (store.filter (specMatches brand «model» jahr status)).isEmpty
         then .error (.http 404 "No matching autos found.")
         else .ok (store.filter (specMatches brand «model» jahr status)))) := by
  constructor
  · intro hbad
    simp [search_auto, hrole, hbad]
  · intro hok
    have hj : jahr ≠ some 0 := by
      intro hzero
      rw [hzero] at hok
      simp [jahrInRange] at hok
    simp [search_auto, hrole, hok, searchQuery_eq_filter _ _ _ _ _ hj]

theorem search_conjunction_semantics_witness :
    search_auto Role.customer 2026 [autoA, autoB]
        (some "bmw") none none (some true) =
      (if (([autoA, autoB]).filter
            (specMatches (some "bmw") none none (some true))).isEmpty
       then .error (.http 404 "No matching autos found.")
       else .ok (([autoA, autoB]).filter
            (specMatches (some "bmw") none none (some true)))) :=
  (search_conjunction_semantics Role.customer 2026 [autoA, autoB]
    (some "bmw") none none (some true) (by decide)).2 (by decide)

/-- C4: listing available vehicles always succeeds and returns exactly the
records with `status == true` (possibly the empty list), whereas a search
whose supplied, boundary-valid filters match no record always fails with
the 404 "No matching autos found." — the two empty-result behaviours
differ. -/
theorem list_ok_search_empty_fails (role : Role) (store : List Auto)
    (hrole : owner_required role = true) :
    show_all_auto role store = .ok (store.filter (fun a => a.status))
    ∧ (∀ (role2 : Role) (now : Int) (brand «model» : Option String)
        (jahr : Option Int) (status : Option Bool),
        owner_or_customer_required role2 = true →
        jahrInRange jahr now = true →
        searchQuery brand «model» jahr status store = [] →
        search_auto role2 now store brand «model» jahr status =
          .error (.http 404 "No matching autos found.")) := by
  constructor
  · simp [show_all_auto, hrole]
  · intro role2 now brand m jahr status h1 h2 h3
    simp [search_auto, h1, h2, h3]

theorem list_ok_search_empty_fails_witness :
    show_all_auto Role.owner [autoB] = .ok ([autoB].filter (fun a => a.status))
    ∧ search_auto Role.owner 2026 [autoB] (some "BMW") none none none =
        .error (.http 404 "No matching autos found.") :=
  ⟨(list_ok_search_empty_fails Role.owner [autoB] (by decide)).1,
   (list_ok_search_empty_fails Role.owner [autoB] (by decide)).2 Role.owner
     2026 (some "BMW") none none none (by decide) (by decide) (by decide)⟩

theorem applyUpdate_fields (a : Auto) (u : AutoUpdate) :
    (applyUpdate a u).brand = u.brand.getD a.brand
    ∧ (applyUpdate a u).model = u.model.getD a.model
    ∧ (applyUpdate a u).jahr = u.jahr.getD a.jahr
    ∧ (applyUpdate a u).preis_pro_stunde =
        u.preis_pro_stunde.getD a.preis_pro_stunde
    ∧ (applyUpdate a u).status = u.status.getD a.status
    ∧ (applyUpdate a u).id = a.id := by
  obtain ⟨ub, um, uj, up, us⟩ := u
  rcases ub with _ | b <;> rcases um with _ | m <;> rcases uj with _ | j <;>
    rcases up with _ | p <;> rcases us with _ | s <;>
    simp [applyUpdate]

/-- C5: updating an existing record with a valid (or absent) price
overwrites exactly the supplied fields, keeps every absent field (and the
id) at its prior value, returns the updated record, and stores it in place
of the old one. -/
theorem update_absent_fields_preserved (store : List Auto) (i : Int)
    (u : AutoUpdate) (a : Auto)
    (hfind : findById store i = some a)
    (hp : ∀ p, u.preis_pro_stunde = some p → 0 < p) :
    update_auto Role.owner store i u =
      (store.map (fun b => if b.id == i then applyUpdate a u else b),
       .ok (applyUpdate a u))
    ∧ (applyUpdate a u).brand = u.brand.getD a.brand
    ∧ (applyUpdate a u).model = u.model.getD a.model
    ∧ (applyUpdate a u).jahr = u.jahr.getD a.jahr
    ∧ (applyUpdate a u).preis_pro_stunde =
        u.preis_pro_stunde.getD a.preis_pro_stunde
    ∧ (applyUpdate a u).status = u.status.getD a.status
    ∧ (applyUpdate a u).id = a.id := by
  refine ⟨?_, applyUpdate_fields a u⟩
  rcases hup : u.preis_pro_stunde with _ | p
  · simp [update_auto, owner_required, hfind, hup]
  · have hpos := hp p hup
    simp [update_auto, owner_required, hfind, hup, not_le.mpr hpos]

theorem update_absent_fields_preserved_witness :
    update_auto Role.owner [autoA] 1 statusOnlyUpdate =
      ([autoA].map (fun b =>
          if b.id == 1 then applyUpdate autoA statusOnlyUpdate else b),
       .ok (applyUpdate autoA statusOnlyUpdate)) :=
  (update_absent_fields_preserved [autoA] 1 statusOnlyUpdate autoA
    (by decide) (fun p hq => by simp [statusOnlyUpdate] at hq)).1

/-- C8 counterexample: the get-by-id endpoint performs no boundary
positivity check on the id — at id 0 (owner role, empty store) it reaches
the store lookup and answers 404, not a 422 request-validation error. -/
theorem nonpositive_id_reaches_store_cex :
    show_auto Role.owner [] 0 =
      .error (.http 404 "Auto with ID 0 not found.")
    ∧ show_auto Role.owner [] 0 ≠ .error .requestValidation := by
  constructor
  · rfl
  · intro hcontra
    simp [show_auto, owner_required, findById] at hcontra

/-- C8 amended: only calculate-price validates its inputs at the boundary —
a non-positive `auto_id` or `mietdauer_stunden` yields the 422
request-validation error for every store state (so before any store
access); get-by-id, update and delete accept any integer id and answer 404
from the store lookup when the id is absent. -/
theorem boundary_validation_amended (store : List Auto) (i h : Int) :
    (∀ role, owner_or_customer_required role = true → i ≤ 0 ∨ h ≤ 0 →
      calculate_total_price role store i h =
        (store, .error .requestValidation))
    ∧ (findById store i = none →
      show_auto Role.owner store i =
          .error (.http 404 s!"Auto with ID {i} not found.")
        ∧ (∀ u, update_auto Role.owner store i u =
            (store, .error (.http 404 s!"Auto with ID {i} does not exist.")))
        ∧ delete_auto Role.owner store i =
            (store, .error (.http 404 s!"Auto with ID {i} not found."))) := by
  constructor
  · intro role hrole hbad
    have hno : ¬(0 < i ∧ 0 < h) := by omega
    simp [calculate_total_price, hrole, hno]
  · intro hnone
    refine ⟨?_, ?_, ?_⟩
    · simp [show_auto, owner_required, hnone]
    · intro u
      simp [update_auto, owner_required, hnone]
    · simp [delete_auto, owner_required, hnone]

theorem boundary_validation_amended_witness :
    calculate_total_price Role.customer [] 0 5 =
      ([], .error .requestValidation)
    ∧ show_auto Role.owner [] 0 =
        .error (.http 404 "Auto with ID 0 not found.") :=
  ⟨(boundary_validation_amended [] 0 5).1 Role.customer (by decide)
    (Or.inl (by decide)),
   ((boundary_validation_amended [] 0 5).2 rfl).1⟩
